import Mathlib

/-!
# Verification of GitHub-AutoPilot's cycle orchestration core

Shallow embedding of the polling loops, decision branches and loop control of
`src/pr_manager.py`, `src/main.py` and `src/github_api.py`.

Modelling conventions:
* Python strings are modelled as `List Char` where character-level operations
  (substring tests, splitting) matter, and as `String` where the value is only
  compared for equality.
* Each iteration of a polling loop performs one "poll" against the remote
  gateway.  The outcome of a poll (the fetched JSON fields actually read by the
  code, a network error, or an HTTP error status) is supplied as one element of
  a list; the list plays the role of the remote environment's behaviour over
  time.  Running out of list elements while the loop would keep polling yields
  the artificial result `starved` (environment under-specified), which every
  theorem below excludes by construction.
* Wall-clock time is modelled by the elapsed-seconds counter the Python code
  itself maintains: the loops test `time.time() - start_time < timeout` before
  each poll and sleep fixed amounts (10 s on a retriable error, 30 s after an
  inconclusive poll).  Network-call duration is abstracted to zero, exactly as
  the code's own budget accounting treats sleeps as the dominant cost.
* Remote mutations that the code performs (PATCH/PUT/POST requests and the
  agent trigger) are recorded as explicit `Act` values in an action trace;
  plain GET polls are not mutations and are not traced.
* Python exceptions escaping a function are modelled by an explicit result
  constructor (`raised`, `exn`) rather than by `Option`, so the raising site
  and the propagation path stay visible.
-/

namespace AutoPilot

/-- Python's `startswith` on character lists: `startsWith p s` is true iff `p`
is an initial segment of `s`. -/
def startsWith : List Char → List Char → Bool
  | [], _ => true
  | _ :: _, [] => false
  | p :: ps, c :: cs => p == c && startsWith ps cs

/-- Python's substring test `pat in s` for strings as character lists. -/
def containsSub (pat : List Char) : List Char → Bool
  | [] => pat.isEmpty
  | c :: rest => startsWith pat (c :: rest) || containsSub pat rest

/-- Python's `str.lower` (ASCII case only, which is all the code compares). -/
def strLower (s : List Char) : List Char := s.map Char.toLower

/-- `pr_manager.wait_for_pr_ready`, line 291:
`has_wip = "[WIP]" in title or "[wip]" in title.lower()`. -/
def has_wip (title : List Char) : Bool :=
  containsSub "[WIP]".toList title || containsSub "[wip]".toList (strLower title)

/-- The fields of the pull-request JSON plus the requested-reviewers JSON that
one iteration of `wait_for_pr_ready` fetches.  `state` is part of the response
(the gateway reports open/closed) and is recorded here so that theorems can
speak about how the code treats a closed pull request; the Python loop body
never reads it. -/
structure PrReadyView where
  state : String
  title : List Char
  users : List String
deriving DecidableEq

/-- Outcome of the fetch phase of one `wait_for_pr_ready` iteration: both GETs
succeed, or a `requests.ConnectionError`/`requests.Timeout` is raised, or a
`requests.HTTPError` with the given status code is raised. -/
inductive ReadyPoll where
  | ok (v : PrReadyView)
  | netErr
  | httpErr (status : Nat)
deriving DecidableEq

/-- How `wait_for_pr_ready` can end.  The Python function returns `True`
(`ready`), returns `False` at budget exhaustion (`timedOut`), or lets an
`HTTPError` with status < 500 escape (`raised`).  `starved` is the modelling
artifact for an under-specified poll list. -/
inductive ReadyResult where
  | ready
  | timedOut
  | raised (status : Nat)
  | starved
deriving DecidableEq

/-- The `while` loop of `pr_manager.wait_for_pr_ready` (lines 282-334).
`elapsed` is `time.time() - start_time` in seconds.  A retriable error (network
error, or HTTP ≥ 500) sleeps 10 s and continues; any other `HTTPError` is
re-raised; a successful poll returns `True` when the title has no WIP marker
and at least one reviewer is requested, otherwise sleeps 30 s and continues. -/
def wait_ready_loop : List ReadyPoll → Nat → Nat → ReadyResult
  | [], elapsed, timeout =>
      if elapsed < timeout then .starved else .timedOut
  | .netErr :: rest, elapsed, timeout =>
      if elapsed < timeout then wait_ready_loop rest (elapsed + 10) timeout
      else .timedOut
  | .httpErr s :: rest, elapsed, timeout =>
      if elapsed < timeout then
        if 500 ≤ s then wait_ready_loop rest (elapsed + 10) timeout
        else .raised s
      else .timedOut
  | .ok v :: rest, elapsed, timeout =>
      if elapsed < timeout then
        if !(has_wip v.title) && !(v.users.isEmpty) then .ready
        else wait_ready_loop rest (elapsed + 30) timeout
      else .timedOut

/-- `pr_manager.wait_for_pr_ready` (lines 268-334), started at elapsed time 0.
Note the Python signature: it takes only the repository, the PR number and a
timeout — there is no cancellation/shutdown parameter of any kind. -/
def wait_for_pr_ready (polls : List ReadyPoll) (timeout : Nat) : ReadyResult :=
  wait_ready_loop polls 0 timeout

/-- The fields of the pull-request JSON that one iteration of
`wait_for_pr_checks` reads: `mergeable_state` (absent key modelled as `none`),
plus the `state` field present in the response but never read by the loop. -/
structure PrChecksView where
  state : String
  mergeable_state : Option String
deriving DecidableEq

/-- Outcome of the fetch phase of one `wait_for_pr_checks` iteration. -/
inductive ChecksPoll where
  | ok (v : PrChecksView)
  | netErr
  | httpErr (status : Nat)
deriving DecidableEq

/-- How `wait_for_pr_checks` can end: `True` on `mergeable_state == "clean"`
(`passed`), `False` on `"dirty"`/`"unstable"` (`failed`), `False` at budget
exhaustion (`timedOut`), or an escaping `HTTPError` (`raised`).  The caller in
`main.py` observes only the boolean, so `failed` and `timedOut` are
indistinguishable to it — both are Python `False`. -/
inductive ChecksResult where
  | passed
  | failed
  | timedOut
  | raised (status : Nat)
  | starved
deriving DecidableEq

/-- The `while` loop of `pr_manager.wait_for_pr_checks` (lines 383-439).  The
secondary `get_pr_check_status` query inside the loop is wrapped in
`try/except Exception` and only prints, so it cannot influence the result and
is not modelled.  `"blocked"` and every unrecognised or missing
`mergeable_state` value fall through to the 30 s sleep and another poll. -/
def wait_checks_loop : List ChecksPoll → Nat → Nat → ChecksResult
  | [], elapsed, timeout =>
      if elapsed < timeout then .starved else .timedOut
  | .netErr :: rest, elapsed, timeout =>
      if elapsed < timeout then wait_checks_loop rest (elapsed + 10) timeout
      else .timedOut
  | .httpErr s :: rest, elapsed, timeout =>
      if elapsed < timeout then
        if 500 ≤ s then wait_checks_loop rest (elapsed + 10) timeout
        else .raised s
      else .timedOut
  | .ok v :: rest, elapsed, timeout =>
      if elapsed < timeout then
        if v.mergeable_state = some "clean" then .passed
        else if v.mergeable_state = some "dirty" ∨
                v.mergeable_state = some "unstable" then .failed
        else wait_checks_loop rest (elapsed + 30) timeout
      else .timedOut

/-- `pr_manager.wait_for_pr_checks` (lines 373-439), started at elapsed 0.  As
with `wait_for_pr_ready`, the Python signature has no cancellation input. -/
def wait_for_pr_checks (polls : List ChecksPoll) (timeout : Nat) : ChecksResult :=
  wait_checks_loop polls 0 timeout

/-- Remote mutations (and the agent trigger) performed by the orchestration
code, in the order they are issued.  `mergePut` is the `PUT .../merge` request
inside `merge_pull_request`; `markReady` is the call to
`mark_pr_ready_for_review`; `commentPR`/`closePR` are the POST comment and
PATCH close inside `close_pull_request`; `closeIssue` is `close_issue`;
`trigger` is the `trigger_copilot_via_gh_cli` invocation. -/
inductive Act where
  | trigger
  | markReady (pr : Int)
  | mergePut (pr : Int)
  | commentPR (pr : Int)
  | closePR (pr : Int)
  | closeIssue (issue : Int)
deriving DecidableEq

/-- The remote state of one pull request that `ensure_pr_base_branch` and
`close_pull_request` read and write: the base branch ref and the open/closed
state. -/
structure RemotePr where
  baseRef : String
  prState : String
deriving DecidableEq

/-- `pr_manager.close_pull_request` (lines 84-112).  Both HTTP calls sit in one
`try`: if the optional comment POST fails the close is never attempted; if the
PATCH close fails the function returns `False` with the PR still open.
`commentOk`/`closeOk` are the oracles for the two calls succeeding.  Returns
the new remote state, the boolean result, and the successful mutations. -/
def close_pull_request (n : Int) (hasComment commentOk closeOk : Bool)
    (pr : RemotePr) : RemotePr × Bool × List Act :=
  if hasComment && !commentOk then (pr, false, [])
  else
    let acts := if hasComment then [Act.commentPR n] else []
    if closeOk then ({ pr with prState := "closed" }, true, acts ++ [Act.closePR n])
    else (pr, false, acts)

/-- `issue_manager.close_issue` (lines 87-115): best-effort comment-and-close
of the work item; result boolean plus the mutation on success.  Modelled at
whole-call granularity because every caller ignores the boolean. -/
def close_issue (i : Int) (ok : Bool) : Bool × List Act :=
  if ok then (true, [Act.closeIssue i]) else (false, [])

/-- `pr_manager.ensure_pr_base_branch` (lines 115-168).  Fetch the PR; if the
base already equals `expected` return `True` with no mutation.  Otherwise PATCH
the base (`updateOk` oracle): on success, close the PR with an explanatory
comment, best-effort close the issue found by the `get_issue_number_from_pr`
heuristic (`issueNum` oracle for its result), and return `False`; on PATCH
failure return `False` with nothing mutated.  The initial GET is assumed to
succeed (its failure would raise out of the function untouched). -/
def ensure_pr_base_branch (n : Int) (expected : String) (updateOk : Bool)
    (issueNum : Option Int) (commentOk closeOk issueOk : Bool)
    (pr : RemotePr) : RemotePr × Bool × List Act :=
  if pr.baseRef = expected then (pr, true, [])
  else if updateOk then
    let pr1 : RemotePr := { pr with baseRef := expected }
    let closed := close_pull_request n true commentOk closeOk pr1
    let issueActs := match issueNum with
      | some i => (close_issue i issueOk).2
      | none => []
    (closed.1, false, closed.2.2 ++ issueActs)
  else (pr, false, [])

/-- The pull-request JSON fields `merge_pull_request` reads before merging. -/
structure PrMergeView where
  mergeable : Option Bool
  mergeable_state : Option String
deriving DecidableEq

/-- `pr_manager.merge_pull_request` (lines 227-265).  Fetch the PR; if the
freshly fetched `mergeable` field is exactly `False`, return `False` without
issuing the merge request.  Otherwise (including `mergeable` null/missing)
issue the `PUT .../merge`; `putOk` is the oracle for it succeeding — on
`HTTPError` the function returns `False`. -/
def merge_pull_request (n : Int) (view : PrMergeView) (putOk : Bool) :
    Bool × List Act :=
  if view.mergeable = some false then (false, [])
  else (putOk, [Act.mergePut n])

/-- `github_api.split_owner_repo` (lines 83-88) over character lists:
`repo.split("/", 1)` after the guard `if "/" not in repo: raise ValueError`. -/
def split_owner_repo (repo : List Char) : Except String (List Char × List Char) :=
  if repo.contains '/' then
    .ok (repo.takeWhile (fun c => c != '/'),
         (repo.dropWhile (fun c => c != '/')).tail)
  else .error "Invalid repository. Expected owner/repo."

/-- One existing open Copilot pull request as processed by the pre-flight step
`main.wait_for_existing_prs_to_complete`: its number together with the results
of the sub-calls made for it.  `ready` and `checks` are the values of the
embedded waiters (`wait_for_pr_ready` / `wait_for_pr_checks`) on this PR;
`mergeView`/`putOk` feed `merge_pull_request`; `issueNum` is the result of the
`get_issue_number_from_pr` heuristic. -/
structure ExistingPr where
  number : Int
  ready : ReadyResult
  baseOk : Bool
  checks : ChecksResult
  mergeView : PrMergeView
  putOk : Bool
  issueNum : Option Int
deriving DecidableEq

/-- How the pre-flight step ends: Python `True` (`allReady`), Python `False`
(`notReady`), an escaping `HTTPError` from a waiter (`err`), or the modelling
artifact `starved`. -/
inductive PreflightOut where
  | allReady
  | notReady
  | err (status : Nat)
  | starved
deriving DecidableEq

/-- `main.wait_for_existing_prs_to_complete` (lines 55-137).  For each open
Copilot PR in turn: wait for readiness (`False` on timeout aborts the whole
pre-flight with `False`); when auto-merge is on, verify the base branch
(`False` aborts), mark ready for review, wait for checks; on passing checks
attempt the merge (`merge_pull_request`) and on merge failure abort with
`False`, on success best-effort close the linked issue and continue; on
failing/timed-out checks close the PR with an explanatory comment, best-effort
close the linked issue, and continue with the next PR; when auto-merge is off
abort with `False` leaving the PR open.  An empty list returns `True`. -/
def wait_for_existing_prs_to_complete (autoMerge : Bool) :
    List ExistingPr → List Act × PreflightOut
  | [] => ([], .allReady)
  | pr :: rest =>
    match pr.ready with
    | .raised s => ([], .err s)
    | .starved => ([], .starved)
    | .timedOut => ([], .notReady)
    | .ready =>
      if autoMerge then
        if pr.baseOk then
          match pr.checks with
          | .raised s => ([Act.markReady pr.number], .err s)
          | .starved => ([Act.markReady pr.number], .starved)
          | .passed =>
            let merged := merge_pull_request pr.number pr.mergeView pr.putOk
            if merged.1 then
              let tl := wait_for_existing_prs_to_complete autoMerge rest
              (Act.markReady pr.number :: merged.2 ++
                 (match pr.issueNum with
                  | some i => (close_issue i true).2
                  | none => []) ++ tl.1,
               tl.2)
            else (Act.markReady pr.number :: merged.2, .notReady)
          | .failed | .timedOut =>
            let tl := wait_for_existing_prs_to_complete autoMerge rest
            (Act.markReady pr.number :: Act.commentPR pr.number ::
               Act.closePR pr.number ::
               (match pr.issueNum with
                | some i => (close_issue i true).2
                | none => []) ++ tl.1,
             tl.2)
        else ([], .notReady)
      else ([], .notReady)

/-- How one run of the cycle executor ends: normal return, an exception
escaping to the loop controller (`exn` with the message), or the modelling
artifact `starved`. -/
inductive CycleEnd where
  | normal
  | exn (msg : String)
  | starved
deriving DecidableEq

/-- The `RuntimeError` raised by `main.run_single_improvement_cycle` when the
pre-flight step reports unresolved existing PRs (lines 156-160). -/
def existingUnresolvedMsg : String :=
  "Cannot start cycle: existing Copilot PRs are not ready."

/-- Message tag for a `requests.HTTPError` propagating out of a waiter. -/
def httpErrMsg (status : Nat) : String := "HTTPError " ++ toString status

/-- The environment of one `run_single_improvement_cycle` call: the existing
open PRs seen by pre-flight, the trigger result (`none` = failure, `some (-1)`
= queued-but-no-PR-yet sentinel, `some n` = PR number), the creation-polling
result for the pending case, and the sub-call results for the new PR. -/
structure CycleEnv where
  autoMerge : Bool
  existing : List ExistingPr
  triggerResult : Option Int
  creationFound : Option Int
  readyRes : ReadyResult
  baseOk : Bool
  checksRes : ChecksResult
  mergeView : PrMergeView
  putOk : Bool
deriving DecidableEq

/-- The part of `main.run_single_improvement_cycle` after a successful
pre-flight (lines 162-258): trigger Copilot (`Act.trigger` is issued before the
result is known); `None` → `RuntimeError`; the `-1` sentinel polls for the
created PR for up to 5 minutes and raises on failure; then, when auto-merge is
on: readiness wait (timeout leaves the PR open and ends the cycle normally),
base-branch guard (`False` ends the cycle normally — the guard already cleaned
up), mark ready, checks wait, and merge on `True` / comment-and-close on
`False`.  With auto-merge off the PR is left open for manual review. -/
def cycle_after_preflight (env : CycleEnv) (acts0 : List Act) :
    List Act × CycleEnd :=
  match env.triggerResult with
  | none => (acts0, .exn "Failed to trigger Copilot via gh CLI")
  | some n0 =>
    match (if n0 = -1 then env.creationFound else some n0) with
    | none => (acts0, .exn "Copilot did not create a PR within 300s")
    | some n =>
      if env.autoMerge then
        match env.readyRes with
        | .raised s => (acts0, .exn (httpErrMsg s))
        | .starved => (acts0, .starved)
        | .timedOut => (acts0, .normal)
        | .ready =>
          if env.baseOk then
            let acts1 := acts0 ++ [Act.markReady n]
            match env.checksRes with
            | .raised s => (acts1, .exn (httpErrMsg s))
            | .starved => (acts1, .starved)
            | .passed =>
                (acts1 ++ (merge_pull_request n env.mergeView env.putOk).2,
                 .normal)
            | .failed | .timedOut =>
                (acts1 ++ [Act.commentPR n, Act.closePR n], .normal)
          else (acts0, .normal)
      else (acts0, .normal)

/-- `main.run_single_improvement_cycle` (lines 140-258): pre-flight first — a
`False` result raises the existing-PRs-unresolved `RuntimeError` before any
trigger — then the trigger-and-resolve phase above. -/
def run_single_improvement_cycle (env : CycleEnv) : List Act × CycleEnd :=
  let pf := wait_for_existing_prs_to_complete env.autoMerge env.existing
  match pf.2 with
  | .err s => (pf.1, .exn (httpErrMsg s))
  | .starved => (pf.1, .starved)
  | .notReady => (pf.1, .exn existingUnresolvedMsg)
  | .allReady => cycle_after_preflight env (pf.1 ++ [Act.trigger])

/-- The mutable counters of `main.continuous_improvement_loop`. -/
structure LoopCounters where
  cycle_index : Nat
  consecutive_failures : Nat
  successful_cycles : Nat
deriving DecidableEq

/-- The `try/except` body of one loop-controller iteration
(`main.continuous_improvement_loop`, lines 308-319): a cycle that returns
normally resets `consecutive_failures` to 0 and increments
`successful_cycles`; a cycle that raises increments `consecutive_failures` and
leaves `successful_cycles` alone; `cycle_index` advances either way.
`starved` environments yield no successor state. -/
def loop_iteration (s : LoopCounters) (outcome : CycleEnd) :
    Option LoopCounters :=
  match outcome with
  | .normal => some ⟨s.cycle_index + 1, 0, s.successful_cycles + 1⟩
  | .exn _ => some ⟨s.cycle_index + 1, s.consecutive_failures + 1,
      s.successful_cycles⟩
  | .starved => none

/-- A poll outcome that keeps `wait_for_pr_ready` polling: a successful fetch
that is still work-in-progress or has no requested reviewer, a network error,
or a server-side (≥ 500) HTTP error. -/
def keepsWaiting : ReadyPoll → Prop
  | .ok v => has_wip v.title = true ∨ v.users = []
  | .netErr => True
  | .httpErr s => 500 ≤ s

instance (p : ReadyPoll) : Decidable (keepsWaiting p) := by
  cases p <;> simp only [keepsWaiting] <;> infer_instance

/-- Seconds slept after one loop iteration of `wait_for_pr_ready`: 10 on a
retriable error, 30 after an inconclusive successful poll. -/
def pollDelay : ReadyPoll → Nat
  | .ok _ => 30
  | .netErr => 10
  | .httpErr _ => 10

/-- Total slept seconds over a list of ready-waiter polls. -/
def pollCost (ps : List ReadyPoll) : Nat := (ps.map pollDelay).sum

/-- A `mergeable_state` value on which `wait_for_pr_checks` keeps polling:
anything other than `"clean"`, `"dirty"` and `"unstable"` (so `"blocked"`,
`"unknown"`, `"draft"`, a missing field, or any other value). -/
def nonTerminalState (ms : Option String) : Prop :=
  ms ≠ some "clean" ∧ ms ≠ some "dirty" ∧ ms ≠ some "unstable"

instance (ms : Option String) : Decidable (nonTerminalState ms) := by
  unfold nonTerminalState
  infer_instance

/-- An open PR still carrying the WIP marker with no requested reviewer (the
situation in `test_graceful_exit.test_wait_for_pr_ready_with_shutdown_check`). -/
def wipView : PrReadyView := ⟨"open", "[WIP] Test PR".toList, []⟩

/-- An open PR whose title has no WIP marker and with one requested reviewer. -/
def finishedView : PrReadyView := ⟨"open", "Add caching layer".toList, ["user1"]⟩

/-- A remotely closed PR that nevertheless satisfies the ready predicate. -/
def closedFinishedView : PrReadyView :=
  ⟨"closed", "Add caching layer".toList, ["user1"]⟩

/-- A remotely closed PR still carrying the WIP marker (the situation in
`test_graceful_exit.test_wait_for_pr_ready_detects_closed_pr`). -/
def closedWipView : PrReadyView := ⟨"closed", "[WIP] Test PR".toList, []⟩

/-- A checks poll whose `mergeable_state` is `"blocked"`. -/
def blockedView : PrChecksView := ⟨"open", some "blocked"⟩

/-- Cycle environment for the checks-timeout counterexample: pre-flight finds
no existing PRs, the trigger immediately returns PR #7, readiness is reached,
the base branch is correct, and every checks poll reports `"blocked"` so the
10-minute budget (here shrunk to 60 s) runs out. -/
def envChecksTimeout : CycleEnv where
  autoMerge := true
  existing := []
  triggerResult := some 7
  creationFound := none
  readyRes := .ready
  baseOk := true
  checksRes := wait_for_pr_checks
    [ChecksPoll.ok blockedView, ChecksPoll.ok blockedView] 60
  mergeView := ⟨some true, some "clean"⟩
  putOk := true

end AutoPilot

namespace AutoPilot

/-- Characterisation of `takeWhile`/`dropWhile` splitting at the first `'/'`:
what comes before the first slash is slash-free, and re-inserting the slash
between the two parts reassembles the input. -/
theorem split_char_spec (repo : List Char) (h : '/' ∈ repo) :
    repo.takeWhile (fun c => c != '/') ++
        '/' :: (repo.dropWhile (fun c => c != '/')).tail = repo
    ∧ '/' ∉ repo.takeWhile (fun c => c != '/') := by
  induction repo with
  | nil => cases h
  | cons c rest ih =>
    by_cases hc : c = '/'
    · subst hc
      simp [List.takeWhile_cons, List.dropWhile_cons]
    · have hmem : '/' ∈ rest := by
        rcases List.mem_cons.mp h with h1 | h1
        · exact absurd h1.symm hc
        · exact h1
      have hpred : (c != '/') = true := by
        simp only [bne_iff_ne, ne_eq]
        exact hc
      obtain ⟨h1, h2⟩ := ih hmem
      refine ⟨?_, ?_⟩
      · simp only [List.takeWhile_cons, List.dropWhile_cons, hpred,
          if_true, List.cons_append]
        exact congrArg (c :: ·) h1
      · simp only [List.takeWhile_cons, hpred, if_true, List.mem_cons,
          not_or]
        exact ⟨fun he => hc he.symm, h2⟩

/-- Claim C9: for every string containing a `'/'`, `split_owner_repo` returns
exactly the substring before the first `'/'` as owner (so the owner part is
slash-free) and everything after that first `'/'` as name; for every string
with no `'/'` it fails with the invalid-format error. -/
theorem split_owner_repo_first_slash :
    (∀ repo : List Char, '/' ∈ repo →
      ∃ o nm, split_owner_repo repo = .ok (o, nm) ∧ repo = o ++ '/' :: nm ∧
        '/' ∉ o)
    ∧ (∀ repo : List Char, '/' ∉ repo →
      split_owner_repo repo = .error "Invalid repository. Expected owner/repo.") := by
  constructor
  · intro repo h
    obtain ⟨h1, h2⟩ := split_char_spec repo h
    refine ⟨_, _, ?_, h1.symm, h2⟩
    unfold split_owner_repo
    rw [if_pos]
    exact List.elem_iff.mpr h
  · intro repo h
    unfold split_owner_repo
    rw [if_neg]
    intro hcon
    exact h (List.elem_iff.mp hcon)

/-- Witness for C9 at `"a/b"` and `"ab"`. -/
theorem split_owner_repo_first_slash_witness :
    (∃ o nm, split_owner_repo "a/b".toList = .ok (o, nm) ∧
      "a/b".toList = o ++ '/' :: nm ∧ '/' ∉ o)
    ∧ split_owner_repo "ab".toList
        = .error "Invalid repository. Expected owner/repo." :=
  ⟨split_owner_repo_first_slash.1 "a/b".toList (by decide),
   split_owner_repo_first_slash.2 "ab".toList (by decide)⟩

/-- Claim C10: if the freshly fetched PR data reports `mergeable` as exactly
`False`, `merge_pull_request` returns `False` and the `PUT .../merge` request
is never issued. -/
theorem merge_skipped_when_unmergeable (n : Int) (view : PrMergeView)
    (putOk : Bool) (h : view.mergeable = some false) :
    merge_pull_request n view putOk = (false, []) ∧
    Act.mergePut n ∉ (merge_pull_request n view putOk).2 := by
  simp [merge_pull_request, h]

/-- Witness for C10: PR #7 with `mergeable: false`. -/
theorem merge_skipped_when_unmergeable_witness :
    merge_pull_request 7 ⟨some false, some "dirty"⟩ true = (false, []) ∧
    Act.mergePut 7 ∉ (merge_pull_request 7 ⟨some false, some "dirty"⟩ true).2 :=
  merge_skipped_when_unmergeable 7 ⟨some false, some "dirty"⟩ true rfl

/-- Claim C8: when the current base differs from the expected base and the
base update succeeds, the guard closes the PR with an explanatory comment,
best-effort closes the associated work item, and returns `False`; invoking the
guard again on the resulting remote state (base repaired, PR closed) performs
no mutation at all — in particular no second close or comment — and returns
`True`, whatever the oracles for that second call are. -/
theorem base_guard_close_once (pr : RemotePr) (n : Int) (expected : String)
    (i : Int) (hbase : ¬ pr.baseRef = expected) :
    (ensure_pr_base_branch n expected true (some i) true true true pr).2.1
        = false
    ∧ (ensure_pr_base_branch n expected true (some i) true true true pr).2.2
        = [Act.commentPR n, Act.closePR n, Act.closeIssue i]
    ∧ (ensure_pr_base_branch n expected true (some i) true true true pr).1
        = ⟨expected, "closed"⟩
    ∧ (∀ (u2 : Bool) (issue2 : Option Int) (c2 k2 i2 : Bool),
        ensure_pr_base_branch n expected u2 issue2 c2 k2 i2
            ⟨expected, "closed"⟩
          = (⟨expected, "closed"⟩, true, [])) := by
  refine ⟨?_, ?_, ?_, ?_⟩
  · simp [ensure_pr_base_branch, close_pull_request, close_issue, hbase]
  · simp [ensure_pr_base_branch, close_pull_request, close_issue, hbase]
  · simp [ensure_pr_base_branch, close_pull_request, close_issue, hbase]
  · intro u2 issue2 c2 k2 i2
    simp [ensure_pr_base_branch]

/-- Witness for C8: PR #7 on base `feature-x` with expected base `Iterate`. -/
theorem base_guard_close_once_witness :
    (ensure_pr_base_branch 7 "Iterate" true (some 3) true true true
        ⟨"feature-x", "open"⟩).2.1 = false
    ∧ (ensure_pr_base_branch 7 "Iterate" true (some 3) true true true
        ⟨"feature-x", "open"⟩).2.2
        = [Act.commentPR 7, Act.closePR 7, Act.closeIssue 3]
    ∧ (ensure_pr_base_branch 7 "Iterate" true (some 3) true true true
        ⟨"feature-x", "open"⟩).1 = ⟨"Iterate", "closed"⟩
    ∧ (∀ (u2 : Bool) (issue2 : Option Int) (c2 k2 i2 : Bool),
        ensure_pr_base_branch 7 "Iterate" u2 issue2 c2 k2 i2
            ⟨"Iterate", "closed"⟩
          = (⟨"Iterate", "closed"⟩, true, [])) :=
  base_guard_close_once ⟨"feature-x", "open"⟩ 7 "Iterate" 3 (by decide)

/-- Claim C4: in the loop controller, a cycle pass that completes without
raising resets the consecutive-failure count to 0 and increments the success
count, regardless of the cycle's internal outcome (the executor returns no
outcome value); a pass that raises increments the consecutive-failure count by
exactly 1 and leaves the success count unchanged. -/
theorem loop_iteration_failure_accounting :
    (∀ (s : LoopCounters) (env : CycleEnv),
      (run_single_improvement_cycle env).2 = .normal →
      loop_iteration s (run_single_improvement_cycle env).2
        = some ⟨s.cycle_index + 1, 0, s.successful_cycles + 1⟩)
    ∧ (∀ (s : LoopCounters) (msg : String),
      loop_iteration s (.exn msg)
        = some ⟨s.cycle_index + 1, s.consecutive_failures + 1,
            s.successful_cycles⟩) := by
  constructor
  · intro s env h
    rw [h]
    rfl
  · intro s msg
    rfl

/-- Witness for C4: the timeout environment completes without raising (its
internal outcome left PR #7 closed after a checks timeout), so the failure
count resets; an exception increments it. -/
theorem loop_iteration_failure_accounting_witness :
    loop_iteration ⟨3, 2, 1⟩ (run_single_improvement_cycle envChecksTimeout).2
        = some ⟨4, 0, 2⟩
    ∧ loop_iteration ⟨3, 2, 1⟩ (.exn "boom") = some ⟨4, 3, 1⟩ :=
  ⟨loop_iteration_failure_accounting.1 ⟨3, 2, 1⟩ envChecksTimeout (by decide),
   loop_iteration_failure_accounting.2 ⟨3, 2, 1⟩ "boom"⟩

/-- As long as every poll keeps the readiness waiter going, it never reports
ready, whatever the elapsed time and budget. -/
theorem wait_ready_loop_not_ready (polls : List ReadyPoll) :
    ∀ (elapsed timeout : Nat), (∀ p ∈ polls, keepsWaiting p) →
    wait_ready_loop polls elapsed timeout ≠ .ready := by
  induction polls with
  | nil =>
    intro elapsed timeout _
    unfold wait_ready_loop
    split <;> simp
  | cons p rest ih =>
    intro elapsed timeout h
    have htail : ∀ q ∈ rest, keepsWaiting q :=
      fun q hq => h q (List.mem_cons_of_mem _ hq)
    cases p with
    | netErr =>
      unfold wait_ready_loop
      by_cases he : elapsed < timeout
      · rw [if_pos he]
        exact ih _ _ htail
      · rw [if_neg he]
        simp
    | httpErr s =>
      have hs : 500 ≤ s := h _ (List.mem_cons_self _ _)
      unfold wait_ready_loop
      by_cases he : elapsed < timeout
      · rw [if_pos he, if_pos hs]
        exact ih _ _ htail
      · rw [if_neg he]
        simp
    | ok v =>
      have hk : has_wip v.title = true ∨ v.users = [] :=
        h _ (List.mem_cons_self _ _)
      have hcond : (!(has_wip v.title) && !(v.users.isEmpty)) = false := by
        rcases hk with hk | hk <;> simp [hk]
      unfold wait_ready_loop
      by_cases he : elapsed < timeout
      · rw [if_pos he, hcond]
        simp only [Bool.false_eq_true, if_false]
        exact ih _ _ htail
      · rw [if_neg he]
        simp

/-- If every poll before some poll keeps the waiter going, the total slept
time stays inside the budget, and that poll satisfies the ready predicate
(no WIP marker, at least one requested reviewer), the waiter returns ready at
that poll. -/
theorem wait_ready_loop_first_ready (pre : List ReadyPoll) :
    ∀ (elapsed : Nat) (v : PrReadyView) (rest : List ReadyPoll)
      (timeout : Nat),
    (∀ p ∈ pre, keepsWaiting p) → elapsed + pollCost pre < timeout →
    has_wip v.title = false → v.users ≠ [] →
    wait_ready_loop (pre ++ ReadyPoll.ok v :: rest) elapsed timeout
      = .ready := by
  induction pre with
  | nil =>
    intro elapsed v rest timeout _ hcost hwip husers
    have he : elapsed < timeout := by
      simp only [pollCost, List.map_nil, List.sum_nil, Nat.add_zero] at hcost
      exact hcost
    have hcond : (!(has_wip v.title) && !(v.users.isEmpty)) = true := by
      cases hu : v.users with
      | nil => exact absurd hu husers
      | cons a l => simp [hwip, hu, List.isEmpty]
    simp only [List.nil_append]
    unfold wait_ready_loop
    rw [if_pos he, hcond]
    simp
  | cons p pre ih =>
    intro elapsed v rest timeout h hcost hwip husers
    have htail : ∀ q ∈ pre, keepsWaiting q :=
      fun q hq => h q (List.mem_cons_of_mem _ hq)
    simp only [List.cons_append]
    cases p with
    | netErr =>
      have hcost2 : elapsed + 10 + pollCost pre < timeout := by
        simp only [pollCost, List.map_cons, List.sum_cons, pollDelay]
          at hcost ⊢
        omega
      have he : elapsed < timeout := by omega
      unfold wait_ready_loop
      rw [if_pos he]
      exact ih _ v rest timeout htail hcost2 hwip husers
    | httpErr s =>
      have hs : 500 ≤ s := h _ (List.mem_cons_self _ _)
      have hcost2 : elapsed + 10 + pollCost pre < timeout := by
        simp only [pollCost, List.map_cons, List.sum_cons, pollDelay]
          at hcost ⊢
        omega
      have he : elapsed < timeout := by omega
      unfold wait_ready_loop
      rw [if_pos he, if_pos hs]
      exact ih _ v rest timeout htail hcost2 hwip husers
    | ok w =>
      have hk : has_wip w.title = true ∨ w.users = [] :=
        h _ (List.mem_cons_self _ _)
      have hcond : (!(has_wip w.title) && !(w.users.isEmpty)) = false := by
        rcases hk with hk | hk <;> simp [hk]
      have hcost2 : elapsed + 30 + pollCost pre < timeout := by
        simp only [pollCost, List.map_cons, List.sum_cons, pollDelay]
          at hcost ⊢
        omega
      have he : elapsed < timeout := by omega
      unfold wait_ready_loop
      rw [if_pos he, hcond]
      simp only [Bool.false_eq_true, if_false]
      exact ih _ v rest timeout htail hcost2 hwip husers

/-- Claim C7: while every poll shows a WIP marker or zero requested reviewers,
`wait_for_pr_ready` does not report ready; at the first poll where the title
carries no WIP marker and a reviewer has been requested — reached within the
timeout budget — it reports ready. -/
theorem ready_requires_predicate :
    (∀ (polls : List ReadyPoll) (timeout : Nat),
      (∀ p ∈ polls, keepsWaiting p) →
      wait_for_pr_ready polls timeout ≠ .ready)
    ∧ (∀ (pre : List ReadyPoll) (v : PrReadyView) (rest : List ReadyPoll)
        (timeout : Nat),
      (∀ p ∈ pre, keepsWaiting p) → pollCost pre < timeout →
      has_wip v.title = false → v.users ≠ [] →
      wait_for_pr_ready (pre ++ ReadyPoll.ok v :: rest) timeout = .ready) := by
  constructor
  · intro polls timeout h
    exact wait_ready_loop_not_ready polls 0 timeout h
  · intro pre v rest timeout h hcost hwip hu
    exact wait_ready_loop_first_ready pre 0 v rest timeout h
      (by simpa using hcost) hwip hu

/-- Witness for C7: a WIP poll followed by a network error never yields ready;
one WIP poll followed by a finished poll yields ready at the second poll. -/
theorem ready_requires_predicate_witness :
    wait_for_pr_ready [ReadyPoll.ok wipView, ReadyPoll.netErr] 120 ≠ .ready
    ∧ wait_for_pr_ready
        ([ReadyPoll.ok wipView] ++ ReadyPoll.ok finishedView :: []) 120
        = .ready :=
  ⟨ready_requires_predicate.1 _ 120 (by decide),
   ready_requires_predicate.2 [ReadyPoll.ok wipView] finishedView [] 120
     (by decide) (by decide) (by decide) (by decide)⟩

/-- While every poll reports a non-terminal `mergeable_state`, the checks
waiter ends with timeout as soon as the slept time exhausts the budget. -/
theorem wait_checks_loop_nonterminal_timeout (polls : List ChecksPoll) :
    ∀ (elapsed timeout : Nat),
    (∀ p ∈ polls, ∃ v, p = ChecksPoll.ok v ∧
      nonTerminalState v.mergeable_state) →
    timeout ≤ elapsed + 30 * polls.length →
    wait_checks_loop polls elapsed timeout = .timedOut := by
  induction polls with
  | nil =>
    intro elapsed timeout _ hle
    simp only [List.length_nil, Nat.mul_zero, Nat.add_zero] at hle
    unfold wait_checks_loop
    rw [if_neg (by omega)]
  | cons p rest ih =>
    intro elapsed timeout h hle
    obtain ⟨v, rfl, hnt⟩ := h p (List.mem_cons_self _ _)
    simp only [nonTerminalState] at hnt
    obtain ⟨h1, h2, h3⟩ := hnt
    unfold wait_checks_loop
    by_cases he : elapsed < timeout
    · rw [if_pos he, if_neg h1, if_neg (by tauto)]
      refine ih _ _ (fun q hq => h q (List.mem_cons_of_mem _ hq)) ?_
      simp only [List.length_cons] at hle
      omega
    · rw [if_neg he]

/-- Claim C6: on each poll of the validation waiter, `mergeable_state`
`"clean"` yields `passed` and stops; `"dirty"` or `"unstable"` yields `failed`
and stops; any non-terminal value (`"blocked"`, `"unknown"`, `"draft"`, a
missing field, …) yields neither — the loop continues, and if every poll is
non-terminal the waiter runs until the timeout budget is exhausted. -/
theorem checks_classification :
    (∀ (v : PrChecksView) (rest : List ChecksPoll) (elapsed timeout : Nat),
      elapsed < timeout → v.mergeable_state = some "clean" →
      wait_checks_loop (ChecksPoll.ok v :: rest) elapsed timeout = .passed)
    ∧ (∀ (v : PrChecksView) (rest : List ChecksPoll) (elapsed timeout : Nat),
      elapsed < timeout →
      (v.mergeable_state = some "dirty" ∨
        v.mergeable_state = some "unstable") →
      wait_checks_loop (ChecksPoll.ok v :: rest) elapsed timeout = .failed)
    ∧ (∀ (v : PrChecksView) (rest : List ChecksPoll) (elapsed timeout : Nat),
      elapsed < timeout → nonTerminalState v.mergeable_state →
      wait_checks_loop (ChecksPoll.ok v :: rest) elapsed timeout
        = wait_checks_loop rest (elapsed + 30) timeout)
    ∧ (∀ (polls : List ChecksPoll) (timeout : Nat),
      (∀ p ∈ polls, ∃ v, p = ChecksPoll.ok v ∧
        nonTerminalState v.mergeable_state) →
      timeout ≤ 30 * polls.length →
      wait_for_pr_checks polls timeout = .timedOut) := by
  refine ⟨?_, ?_, ?_, ?_⟩
  · intro v rest elapsed timeout he hms
    unfold wait_checks_loop
    rw [if_pos he, if_pos hms]
  · intro v rest elapsed timeout he hms
    have hnc : ¬ v.mergeable_state = some "clean" := by
      rcases hms with h | h <;> rw [h] <;> decide
    unfold wait_checks_loop
    rw [if_pos he, if_neg hnc, if_pos hms]
  · intro v rest elapsed timeout he hnt
    simp only [nonTerminalState] at hnt
    obtain ⟨h1, h2, h3⟩ := hnt
    conv_lhs => unfold wait_checks_loop
    rw [if_pos he, if_neg h1, if_neg (by tauto)]
  · intro polls timeout h hle
    exact wait_checks_loop_nonterminal_timeout polls 0 timeout h
      (by simpa using hle)

/-- Witness for C6 at concrete polls: clean passes, dirty and unstable fail,
blocked continues, and an all-blocked stream times out. -/
theorem checks_classification_witness :
    wait_checks_loop [ChecksPoll.ok ⟨"open", some "clean"⟩] 0 60 = .passed
    ∧ wait_checks_loop [ChecksPoll.ok ⟨"open", some "dirty"⟩] 0 60 = .failed
    ∧ wait_checks_loop [ChecksPoll.ok ⟨"open", some "unstable"⟩] 0 60 = .failed
    ∧ wait_checks_loop [ChecksPoll.ok blockedView] 0 60
        = wait_checks_loop [] 30 60
    ∧ wait_for_pr_checks [ChecksPoll.ok blockedView, ChecksPoll.ok blockedView]
        60 = .timedOut :=
  ⟨checks_classification.1 _ [] 0 60 (by decide) rfl,
   checks_classification.2.1 _ [] 0 60 (by decide) (Or.inl rfl),
   checks_classification.2.1 _ [] 0 60 (by decide) (Or.inr rfl),
   checks_classification.2.2.1 _ [] 0 60 (by decide) (by decide),
   checks_classification.2.2.2 _ 60 (by
      intro p hp
      rcases List.mem_cons.mp hp with rfl | hp
      · exact ⟨blockedView, rfl, by decide⟩
      · rcases List.mem_singleton.mp hp with rfl
        exact ⟨blockedView, rfl, by decide⟩)
     (by decide)⟩

/-- Claim C2 (counterexample): a checks wait that exhausts its budget on
`"blocked"` polls returns `timedOut` — the Python value `False` — and the
cycle executor then comments on and closes PR #7 instead of proceeding to done
without closing: the close action is in the cycle's mutation trace. -/
theorem checks_timeout_closes_pr :
    wait_for_pr_checks [ChecksPoll.ok blockedView, ChecksPoll.ok blockedView]
        60 = .timedOut
    ∧ envChecksTimeout.checksRes = .timedOut
    ∧ run_single_improvement_cycle envChecksTimeout
        = ([Act.trigger, Act.markReady 7, Act.commentPR 7, Act.closePR 7],
           .normal)
    ∧ Act.closePR 7 ∈ (run_single_improvement_cycle envChecksTimeout).1 := by
  decide

/-- Claim C2 (amended): the checks waiter folds `timed_out` and `failed` into
the single return value `False`, so a cycle whose validation wait ends in
timeout takes exactly the same close-and-explain path as a failed outcome:
the executor comments on and closes the change request and never merges. -/
theorem checks_timeout_same_as_failed (env : CycleEnv) (n : Int)
    (h1 : env.existing = []) (h2 : env.autoMerge = true)
    (h3 : env.triggerResult = some n) (h4 : ¬ n = -1)
    (h5 : env.readyRes = .ready) (h6 : env.baseOk = true) :
    (env.checksRes = .timedOut →
      run_single_improvement_cycle env
        = ([Act.trigger, Act.markReady n, Act.commentPR n, Act.closePR n],
           .normal))
    ∧ (env.checksRes = .failed →
      run_single_improvement_cycle env
        = ([Act.trigger, Act.markReady n, Act.commentPR n, Act.closePR n],
           .normal)) := by
  constructor <;> intro hc <;>
    simp [run_single_improvement_cycle, cycle_after_preflight,
      wait_for_existing_prs_to_complete, h1, h2, h3, h4, h5, h6, hc]

/-- Witness for the amended C2: PR #7 with an all-blocked checks stream
(timeout) and with a dirty stream (failure) produce the same trace. -/
theorem checks_timeout_same_as_failed_witness :
    run_single_improvement_cycle envChecksTimeout
      = ([Act.trigger, Act.markReady 7, Act.commentPR 7, Act.closePR 7],
         .normal)
    ∧ run_single_improvement_cycle
        { envChecksTimeout with checksRes := ChecksResult.failed }
      = ([Act.trigger, Act.markReady 7, Act.commentPR 7, Act.closePR 7],
         .normal) :=
  ⟨(checks_timeout_same_as_failed envChecksTimeout 7 rfl rfl rfl (by decide)
      rfl rfl).1 (by decide),
   (checks_timeout_same_as_failed
      { envChecksTimeout with checksRes := ChecksResult.failed } 7 rfl rfl rfl
      (by decide) rfl rfl).2 rfl⟩

/-- The merge helper never produces the trigger action. -/
theorem trigger_not_in_merge_acts (n : Int) (v : PrMergeView) (ok : Bool) :
    Act.trigger ∉ (merge_pull_request n v ok).2 := by
  unfold merge_pull_request
  split <;> simp

/-- The pre-flight step never produces the trigger action: the agent is never
triggered while existing PRs are being resolved. -/
theorem trigger_not_in_preflight (am : Bool) (prs : List ExistingPr) :
    Act.trigger ∉ (wait_for_existing_prs_to_complete am prs).1 := by
  induction prs with
  | nil => simp [wait_for_existing_prs_to_complete]
  | cons pr rest ih =>
    unfold wait_for_existing_prs_to_complete
    cases hr : pr.ready <;>
      cases hi : pr.issueNum <;>
      cases hc : pr.checks <;>
      simp [close_issue, merge_pull_request, ih] <;>
      split_ifs <;>
      simp_all [close_issue]

/-- Claim C5: the cycle executor never issues the agent trigger while the
pre-flight step reports unresolved existing PRs — a `notReady` pre-flight
makes the cycle raise the existing-work-unresolved error with no trigger in
its mutation trace, and a trigger in the trace implies the pre-flight reported
all-resolved; pre-flight reports `notReady` when an existing PR's readiness
wait times out, when its merge attempt fails, and when auto-merge is disabled
with an existing PR left open. -/
theorem preflight_blocks_trigger :
    (∀ env : CycleEnv,
      (wait_for_existing_prs_to_complete env.autoMerge env.existing).2
          = .notReady →
      (run_single_improvement_cycle env).2 = .exn existingUnresolvedMsg ∧
      Act.trigger ∉ (run_single_improvement_cycle env).1)
    ∧ (∀ env : CycleEnv,
      Act.trigger ∈ (run_single_improvement_cycle env).1 →
      (wait_for_existing_prs_to_complete env.autoMerge env.existing).2
          = .allReady)
    ∧ (∀ (am : Bool) (pr : ExistingPr) (rest : List ExistingPr),
      pr.ready = .timedOut →
      (wait_for_existing_prs_to_complete am (pr :: rest)).2 = .notReady)
    ∧ (∀ (pr : ExistingPr) (rest : List ExistingPr),
      pr.ready = .ready → pr.baseOk = true → pr.checks = .passed →
      (merge_pull_request pr.number pr.mergeView pr.putOk).1 = false →
      (wait_for_existing_prs_to_complete true (pr :: rest)).2 = .notReady)
    ∧ (∀ (pr : ExistingPr) (rest : List ExistingPr),
      pr.ready = .ready →
      (wait_for_existing_prs_to_complete false (pr :: rest)).2
          = .notReady) := by
  refine ⟨?_, ?_, ?_, ?_, ?_⟩
  · intro env hnot
    have hrun : run_single_improvement_cycle env
        = ((wait_for_existing_prs_to_complete env.autoMerge env.existing).1,
           .exn existingUnresolvedMsg) := by
      simp only [run_single_improvement_cycle, hnot]
    rw [hrun]
    exact ⟨rfl, trigger_not_in_preflight env.autoMerge env.existing⟩
  · intro env htrig
    cases hpf : (wait_for_existing_prs_to_complete env.autoMerge
        env.existing).2 with
    | allReady => rfl
    | notReady =>
      exfalso
      apply trigger_not_in_preflight env.autoMerge env.existing
      have h1 : (run_single_improvement_cycle env).1
          = (wait_for_existing_prs_to_complete env.autoMerge env.existing).1 := by
        simp only [run_single_improvement_cycle, hpf]
      rwa [h1] at htrig
    | err s =>
      exfalso
      apply trigger_not_in_preflight env.autoMerge env.existing
      have h1 : (run_single_improvement_cycle env).1
          = (wait_for_existing_prs_to_complete env.autoMerge env.existing).1 := by
        simp only [run_single_improvement_cycle, hpf]
      rwa [h1] at htrig
    | starved =>
      exfalso
      apply trigger_not_in_preflight env.autoMerge env.existing
      have h1 : (run_single_improvement_cycle env).1
          = (wait_for_existing_prs_to_complete env.autoMerge env.existing).1 := by
        simp only [run_single_improvement_cycle, hpf]
      rwa [h1] at htrig
  · intro am pr rest hr
    simp [wait_for_existing_prs_to_complete, hr]
  · intro pr rest hr hb hc hm
    simp [wait_for_existing_prs_to_complete, hr, hb, hc, hm]
  · intro pr rest hr
    simp [wait_for_existing_prs_to_complete, hr]

/-- Witness for C5: with an existing PR whose readiness wait timed out, the
cycle raises and issues no trigger; a trigger in the successful environment's
trace implies an all-resolved pre-flight; and the three unresolved causes each
yield a `notReady` pre-flight. -/
theorem preflight_blocks_trigger_witness :
    ((run_single_improvement_cycle
        { envChecksTimeout with
            existing := [⟨5, ReadyResult.timedOut, true, ChecksResult.passed,
              ⟨some true, none⟩, true, none⟩] }).2
        = .exn existingUnresolvedMsg
      ∧ Act.trigger ∉ (run_single_improvement_cycle
        { envChecksTimeout with
            existing := [⟨5, ReadyResult.timedOut, true, ChecksResult.passed,
              ⟨some true, none⟩, true, none⟩] }).1)
    ∧ (wait_for_existing_prs_to_complete envChecksTimeout.autoMerge
        envChecksTimeout.existing).2 = .allReady
    ∧ (wait_for_existing_prs_to_complete true
        [⟨5, ReadyResult.timedOut, true, ChecksResult.passed,
          ⟨some true, none⟩, true, none⟩]).2 = .notReady
    ∧ (wait_for_existing_prs_to_complete true
        [⟨5, ReadyResult.ready, true, ChecksResult.passed,
          ⟨some true, none⟩, false, none⟩]).2 = .notReady
    ∧ (wait_for_existing_prs_to_complete false
        [⟨5, ReadyResult.ready, true, ChecksResult.passed,
          ⟨some true, none⟩, true, none⟩]).2 = .notReady :=
  ⟨preflight_blocks_trigger.1 _ (by decide),
   preflight_blocks_trigger.2.1 envChecksTimeout (by decide),
   preflight_blocks_trigger.2.2.1 true _ [] rfl,
   preflight_blocks_trigger.2.2.2.1 _ [] rfl rfl rfl (by decide),
   preflight_blocks_trigger.2.2.2.2 _ [] rfl⟩

/-- Claim C1 (divergence evaluation): the source waiters accept no
cancellation input at all — `wait_for_pr_ready` runs its polls to the ready
condition or to budget exhaustion regardless of any shutdown request, which it
cannot observe, and its result type has no aborted outcome: every run ends in
ready, timeout, a raised HTTP error, or (model-only) starvation. -/
theorem waiters_lack_cancellation :
    wait_for_pr_ready [ReadyPoll.ok wipView, ReadyPoll.ok wipView] 60
        = .timedOut
    ∧ wait_for_pr_ready [ReadyPoll.ok finishedView] 60 = .ready
    ∧ wait_for_pr_checks [ChecksPoll.ok blockedView, ChecksPoll.ok blockedView]
        60 = .timedOut
    ∧ (∀ (polls : List ReadyPoll) (timeout : Nat),
        wait_for_pr_ready polls timeout = .ready ∨
        wait_for_pr_ready polls timeout = .timedOut ∨
        (∃ s, wait_for_pr_ready polls timeout = .raised s) ∨
        wait_for_pr_ready polls timeout = .starved) := by
  refine ⟨by decide, by decide, by decide, ?_⟩
  intro polls timeout
  cases h : wait_for_pr_ready polls timeout with
  | ready => exact Or.inl rfl
  | timedOut => exact Or.inr (Or.inl rfl)
  | raised s => exact Or.inr (Or.inr (Or.inl ⟨s, rfl⟩))
  | starved => exact Or.inr (Or.inr (Or.inr rfl))

/-- Claim C3 (divergence evaluation): the readiness waiter never consults the
fetched `state` field — a remotely closed PR that satisfies the ready
predicate is reported ready, a closed PR still in WIP is polled until timeout,
and a 404 client error re-raises the `HTTPError` out of the waiter instead of
stopping with a remote-closed report. -/
theorem ready_waiter_ignores_closed_state :
    wait_for_pr_ready [ReadyPoll.ok closedFinishedView] 60 = .ready
    ∧ wait_for_pr_ready
        [ReadyPoll.ok closedWipView, ReadyPoll.ok closedWipView] 60
        = .timedOut
    ∧ wait_for_pr_ready [ReadyPoll.httpErr 404] 60 = .raised 404
    ∧ closedFinishedView.state = "closed"
    ∧ closedWipView.state = "closed" := by
  refine ⟨by decide, by decide, by decide, rfl, rfl⟩
end AutoPilot
